import Mathlib

/-! Formspree form handler.

A shallow embedding of `assets/js/formspree-handler.js`: the submit listener, its
fetch promise chain and the seven controller functions (`showLoading`,
`hideLoading`, `showSuccess`, `hideSuccess`, `displayError`, `hideError`,
`hideAllStates`), over an explicit model of the part of the page they touch.

Modelling conventions.
* A form owns at most one element for each of the four selectors the script
  queries (`.loading`, `.sent-message`, `.error-message`,
  `button[type="submit"]`); `none` is `querySelector` returning `null`.
  The four elements are distinct.
* `getAttribute` returns `null` (`none`) or a string; JavaScript truthiness of
  strings is "non-empty".
* Timers and in-flight requests are explicit lists in the page state; the clock
  is a natural number of milliseconds.
-/

namespace Formspree

/-! ## JavaScript values and the operators the script applies to them -/

/-- A value produced by `response.json()`, plus `undefined` for absent properties.
A number is carried as its canonical `ToString` text (`"0"` for both zeroes). -/
inductive JsVal where
  | undefined
  | null
  | bool (b : Bool)
  | num (text : String)
  | str (s : String)
  | arr (items : List JsVal)
  | obj (fields : List (String × JsVal))

/-- JavaScript truthiness. -/
def JsVal.truthy : JsVal → Bool
  | .undefined => false
  | .null => false
  | .bool b => b
  | .num t => t != "0"
  | .str s => s != ""
  | .arr _ => true
  | .obj _ => true

/-- The operator `a || b`. -/
def JsVal.or (a b : JsVal) : JsVal :=
  if a.truthy then a else b

/-- `null` or `undefined`. -/
def JsVal.nullish : JsVal → Bool
  | .undefined => true
  | .null => true
  | _ => false

/-- Does the object own the key `k`? -/
def hasKey (fields : List (String × JsVal)) (k : String) : Bool :=
  fields.any fun kv => kv.1 == k

mutual
/-- The abstract operation `ToString`, as `new Error(v)` applies it to its argument;
`none` when it throws a `TypeError`. A parsed object that owns a key `toString` shadows
`Object.prototype.toString` with a value that cannot be called, and `valueOf` yields
no primitive, so the conversion throws; any other parsed object gives
`"[object Object]"`. -/
def JsVal.toStr : JsVal → Option String
  | .undefined => some "undefined"
  | .null => some "null"
  | .bool true => some "true"
  | .bool false => some "false"
  | .num t => some t
  | .str s => some s
  | .arr items => JsVal.joinStr items
  | .obj fields => if hasKey fields "toString" then none else some "[object Object]"
/-- `Array.prototype.join(",")`: nullish elements contribute the empty string, and a
throwing element makes the whole conversion throw. -/
def JsVal.joinStr : List JsVal → Option String
  | [] => some ""
  | x :: rest =>
    match (if x.nullish then some "" else x.toStr),
        (match rest with
         | [] => some ""
         | _ :: _ => (JsVal.joinStr rest).map fun t => "," ++ t) with
    | some a, some b => some (a ++ b)
    | _, _ => none
end

/-- Own property lookup on an object built by `JSON.parse`: with a repeated key the
last occurrence wins. -/
def lookupField (fields : List (String × JsVal)) (k : String) : JsVal :=
  match fields.reverse.lookup k with
  | some v => v
  | none => .undefined

/-- Read of a named property `v.k` on a non-nullish value, for the keys the script
reads (`error`, `errors`, `message`), which no built-in prototype defines. -/
def JsVal.getProp (v : JsVal) (k : String) : JsVal :=
  match v with
  | .obj fields => lookupField fields k
  | _ => .undefined

/-- Read of `v[0]` on a non-nullish value. -/
def JsVal.getIndex0 (v : JsVal) : JsVal :=
  match v with
  | .arr (x :: _) => x
  | .str s =>
    match s.data with
    | c :: _ => .str (String.mk [c])
    | [] => .undefined
  | .obj fields => lookupField fields "0"
  | _ => .undefined

/-- Optional chaining `v?.[0]`. -/
def JsVal.optIndex0 (v : JsVal) : JsVal :=
  if v.nullish then .undefined else v.getIndex0

/-- Optional chaining `v?.k`. -/
def JsVal.optProp (v : JsVal) (k : String) : JsVal :=
  if v.nullish then .undefined else v.getProp k

/-- Does `l` begin with `p`? -/
def startsWith : List Char → List Char → Bool
  | _, [] => true
  | [], _ :: _ => false
  | a :: l, b :: p => a == b && startsWith l p

/-- Does `p` occur somewhere in `l`? -/
def occursIn : List Char → List Char → Bool
  | [], p => startsWith [] p
  | a :: l, p => startsWith (a :: l) p || occursIn l p

/-- `s.includes(sub)`. -/
def includes (s sub : String) : Bool :=
  occursIn s.data sub.data

/-- Truthiness of the result of `getAttribute` / `headers.get`: not `null` and not
the empty string. -/
def attrTruthy : Option String → Bool
  | none => false
  | some s => s != ""

/-! ## The page model -/

/-- A message region: the two markers the script toggles (`style.display` and the
class `d-block`), and `innerHTML`, the string last assigned to the property
`innerHTML`. The browser parses that string as markup, so the text it renders, and
the value read back from the property, are that same string only when it holds no
markup; nothing here models the parse. -/
structure Region where
  innerHTML : String
  display : String
  dBlock : Bool
  deriving DecidableEq, Repr

/-- The submit button. `originalText` is the attribute `data-original-text`. -/
structure Button where
  disabled : Bool
  innerHTML : String
  originalText : Option String
  deriving DecidableEq, Repr

/-- A form control with its current and its default value. -/
structure Field where
  name : String
  value : String
  defaultValue : String
  deriving DecidableEq, Repr

/-- The part of a form the script reads and writes. -/
structure Form where
  action : Option String
  loading : Option Region
  sent : Option Region
  error : Option Region
  submitBtn : Option Button
  fields : List Field
  deriving DecidableEq, Repr

/-- A region is visible when it carries the class `d-block` or an inline display
other than `none`; with neither, the page style sheet keeps it hidden. -/
def Region.visible (r : Region) : Bool :=
  r.dBlock || !(r.display == "none" || r.display == "")

/-- Visibility of an optional region: an absent region shows nothing. -/
def regionVisible : Option Region → Bool
  | none => false
  | some r => r.visible

/-- The assignments `style.display = 'block'; classList.add('d-block')`. -/
def Region.show (r : Region) : Region :=
  { r with display := "block", dBlock := true }

/-- The assignments `style.display = 'none'; classList.remove('d-block')`. -/
def Region.hide (r : Region) : Region :=
  { r with display := "none", dBlock := false }

/-- The label `showLoading` puts on the button. -/
def sendingLabel : String := "<i class=\"bi bi-hourglass-split me-2\"></i>Sending..."

/-- The label `hideLoading` falls back to. -/
def defaultLabel : String := "<i class=\"bi bi-envelope me-2\"></i>Send Message"

/-- The value of `originalText || defaultLabel`. -/
def restoredLabel (originalText : Option String) : String :=
  match originalText with
  | some s => if s != "" then s else defaultLabel
  | none => defaultLabel

/-! ## The controller functions -/

/-- The function `hideLoading` (lines 98-113). -/
def hideLoading (f : Form) : Form :=
  { f with
    loading := f.loading.map Region.hide
    submitBtn := f.submitBtn.map fun b =>
      { b with disabled := false, innerHTML := restoredLabel b.originalText } }

/-- The function `hideSuccess` (lines 124-130). -/
def hideSuccess (f : Form) : Form :=
  { f with sent := f.sent.map Region.hide }

/-- The function `hideError` (lines 147-153). -/
def hideError (f : Form) : Form :=
  { f with error := f.error.map Region.hide }

/-- The function `hideAllStates` (lines 155-159). -/
def hideAllStates (f : Form) : Form :=
  hideSuccess (hideError (hideLoading f))

/-- The button part of `showLoading` (lines 88-95). -/
def Button.busy (b : Button) : Button :=
  { disabled := true
    innerHTML := sendingLabel
    originalText := if !attrTruthy b.originalText then some b.innerHTML else b.originalText }

/-- The function `showLoading` (lines 78-96). -/
def showLoading (f : Form) : Form :=
  let g := hideAllStates f
  { g with
    loading := g.loading.map Region.show
    submitBtn := g.submitBtn.map Button.busy }

/-- The function `showSuccess` (lines 115-122). -/
def showSuccess (f : Form) : Form :=
  let g := hideAllStates f
  { g with sent := g.sent.map Region.show }

/-- The DOM part of `displayError` (lines 133-139): `message` is assigned to the
`innerHTML` of the error region, as given. -/
def showError (message : String) (f : Form) : Form :=
  let g := hideAllStates f
  { g with error := g.error.map fun r => { r with innerHTML := message }.show }

/-- The method `form.reset()`: every control returns to its default value. -/
def Form.reset (f : Form) : Form :=
  { f with fields := f.fields.map fun c => { c with value := c.defaultValue } }

/-- The entries `new FormData(form)` collects: a control without a name is left out. -/
def formData (f : Form) : List (String × String) :=
  (f.fields.filter fun c => c.name != "").map fun c => (c.name, c.value)

/-! ## Requests, responses and timers -/

/-- What the script reads of a `Response`. `body` is the settlement of
`response.json()`: the parsed value, or the message of the `SyntaxError`. -/
structure Response where
  status : Nat
  statusText : String
  contentType : Option String
  body : Except String JsVal

/-- The getter `response.ok`: status in the range 200-299. -/
def Response.ok (r : Response) : Bool :=
  decide (200 ≤ r.status) && decide (r.status ≤ 299)

/-- The test `contentType && contentType.includes('application/json')`. -/
def Response.isJson (r : Response) : Bool :=
  match r.contentType with
  | some ct => ct != "" && includes ct "application/json"
  | none => false

/-- How the promise returned by `fetch` settles: with a response, or rejected with an
error whose `message` is given. -/
inductive Outcome where
  | response (r : Response)
  | rejected (message : String)

/-- The two callbacks the script hands to `setTimeout`. -/
inductive TimerAction where
  | hideSuccess
  | hideError
  deriving DecidableEq, Repr

/-- A pending timer with the clock value at which it fires. -/
structure Timer where
  due : Nat
  action : TimerAction
  deriving DecidableEq, Repr

/-- A call of `fetch` (a POST of the form data to the action URL), tagged with the
number of the submission that issued it. -/
structure Request where
  attempt : Nat
  url : String
  body : List (String × String)
  deriving DecidableEq, Repr

/-- The page state around one form. `nullReadMessage` is the message of the
`TypeError` the engine raises for a property read on `null`, `toPrimitiveMessage` that
of the `TypeError` it raises when an object has no primitive value. An entry of
`console` is the label and the message of the error passed to `console.error`. -/
structure World where
  form : Form
  now : Nat
  timers : List Timer
  inflight : List Request
  fetchLog : List Request
  console : List (String × String)
  nextAttempt : Nat
  nullReadMessage : String
  toPrimitiveMessage : String
  deriving DecidableEq, Repr

/-- The function `displayError` (lines 132-145): the DOM update and the 8 s timer. -/
def displayError (message : String) (w : World) : World :=
  { w with
    form := showError message w.form
    timers := w.timers ++ [{ due := w.now + 8000, action := .hideError }] }

/-- The message of the error thrown on line 53 for parsed body `data`: the `TypeError`
of reading `error` on `null`, the `TypeError` of a failed `ToString` inside
`new Error(...)`, or the message of the `Error` built. -/
def thrownMessage (nullReadMessage toPrimitiveMessage : String) (data : JsVal)
    (status : Nat) : String :=
  if data.nullish then nullReadMessage
  else
    match ((data.getProp "error").or
      ((((data.getProp "errors").optIndex0).optProp "message").or
        (.str ("HTTP Error: " ++ toString status)))).toStr with
    | some m => m
    | none => toPrimitiveMessage

/-- The first `.then` callback after `hideLoading` (lines 39-58): `.ok` when the
promise it returns fulfils, `.error m` when the chain rejects with message `m`. -/
def responseResult (nullReadMessage toPrimitiveMessage : String) (r : Response) :
    Except String Unit :=
  if r.ok then
    if r.isJson then
      match r.body with
      | .ok _ => .ok ()
      | .error m => .error m
    else .ok ()
  else
    if r.isJson then
      match r.body with
      | .ok data => .error (thrownMessage nullReadMessage toPrimitiveMessage data r.status)
      | .error m => .error m
    else .error ("HTTP Error: " ++ toString r.status ++ " " ++ r.statusText)

/-- The second `.then` callback (lines 60-69). -/
def onFulfilled (w : World) : World :=
  { w with
    form := (showSuccess w.form).reset
    timers := w.timers ++ [{ due := w.now + 5000, action := .hideSuccess }] }

/-- The `.catch` callback (lines 70-74). -/
def onRejected (message : String) (w : World) : World :=
  displayError (if message != "" then message else "Something went wrong. Please try again.")
    { w with console := w.console ++ [("Form submission error:", message)] }

/-- The promise chain attached to `fetch` (lines 36-74), run on the outcome. -/
def onFetchSettled (o : Outcome) (w : World) : World :=
  match o with
  | .rejected m => onRejected m w
  | .response r =>
    let w1 := { w with form := hideLoading w.form }
    match responseResult w.nullReadMessage w.toPrimitiveMessage r with
    | .ok _ => onFulfilled w1
    | .error m => onRejected m w1

/-- The submit listener up to the call of `fetch` (lines 12-35). -/
def submit (w : World) : World :=
  match w.form.action with
  | some action =>
    if action != "" then
      let g := showLoading w.form
      let req : Request := { attempt := w.nextAttempt, url := action, body := formData g }
      { w with
        form := g
        inflight := w.inflight ++ [req]
        fetchLog := w.fetchLog ++ [req]
        nextAttempt := w.nextAttempt + 1 }
    else displayError "The form action property is not set!" { w with nextAttempt := w.nextAttempt + 1 }
  | none => displayError "The form action property is not set!" { w with nextAttempt := w.nextAttempt + 1 }

/-- Is the request of submission `attempt` still in flight? -/
def inFlight (attempt : Nat) (w : World) : Bool :=
  w.inflight.any fun q => q.attempt == attempt

/-- The request of submission `attempt` settles with outcome `o`; nothing happens when
no such request is in flight. -/
def settle (attempt : Nat) (o : Outcome) (w : World) : World :=
  if inFlight attempt w then
    onFetchSettled o { w with inflight := w.inflight.filter fun q => q.attempt != attempt }
  else w

/-- The callback of a timer. -/
def TimerAction.run (a : TimerAction) (f : Form) : Form :=
  match a with
  | .hideSuccess => Formspree.hideSuccess f
  | .hideError => Formspree.hideError f

/-- The region a timer callback hides. -/
def TimerAction.target (a : TimerAction) (f : Form) : Option Region :=
  match a with
  | .hideSuccess => f.sent
  | .hideError => f.error

/-- Insert a timer after every timer that is due no later (the timer queue order). -/
def enqueue (t : Timer) : List Timer → List Timer
  | [] => [t]
  | u :: rest => if u.due ≤ t.due then u :: enqueue t rest else t :: u :: rest

/-- The timers in firing order: by due time, ties in the order they were set. -/
def firingOrder (ts : List Timer) : List Timer :=
  ts.foldl (fun acc t => enqueue t acc) []

/-- The clock advances by `dt` ms: every timer due by then fires, in firing order. -/
def elapse (dt : Nat) (w : World) : World :=
  let deadline := w.now + dt
  let due := firingOrder (w.timers.filter fun t => decide (t.due ≤ deadline))
  { w with
    form := due.foldl (fun f t => t.action.run f) w.form
    timers := w.timers.filter fun t => !decide (t.due ≤ deadline)
    now := deadline }

/-- The controller operations. -/
inductive Op where
  | showLoading
  | hideLoading
  | showSuccess
  | hideSuccess
  | displayError (message : String)
  | hideError
  | hideAllStates

/-- Run one controller operation on the page. -/
def Op.apply (o : Op) (w : World) : World :=
  match o with
  | .showLoading => { w with form := Formspree.showLoading w.form }
  | .hideLoading => { w with form := Formspree.hideLoading w.form }
  | .showSuccess => { w with form := Formspree.showSuccess w.form }
  | .hideSuccess => { w with form := Formspree.hideSuccess w.form }
  | .displayError m => Formspree.displayError m w
  | .hideError => { w with form := Formspree.hideError w.form }
  | .hideAllStates => { w with form := Formspree.hideAllStates w.form }

/-- Run a sequence of controller operations, first to last. -/
def runOps (ops : List Op) (w : World) : World :=
  ops.foldl (fun v o => o.apply v) w

/-- What can happen on the page. -/
inductive Event where
  | submit
  | settle (attempt : Nat) (o : Outcome)
  | elapse (dt : Nat)
  | op (o : Op)

/-- One event. -/
def Event.apply (e : Event) (w : World) : World :=
  match e with
  | .submit => Formspree.submit w
  | .settle a o => Formspree.settle a o w
  | .elapse dt => Formspree.elapse dt w
  | .op o => o.apply w

/-- A run of events, first to last. -/
def run (evs : List Event) (w : World) : World :=
  evs.foldl (fun v e => e.apply v) w

/-- The stored original label (attribute `data-original-text`) of the submit button. -/
def memento (f : Form) : Option (Option String) :=
  f.submitBtn.map fun b => b.originalText

/-- How many of the three regions are visible. -/
def visibleCount (f : Form) : Nat :=
  (regionVisible f.loading).toNat + (regionVisible f.sent).toNat +
    (regionVisible f.error).toNat

/-- The text of the configuration error. -/
def actionNotSet : String := "The form action property is not set!"

/-- A stored label that `showLoading` will not replace: there is no button, or the
attribute holds a non-empty string. -/
def mementoFixed : Option (Option String) → Bool
  | none => true
  | some o => attrTruthy o

/-! ## Sample pages -/

/-- A region as the page first renders it: empty, no inline display, no `d-block`. -/
def blankRegion : Region := { innerHTML := "", display := "", dBlock := false }

/-- A contact form posting to Formspree, with a submit button labelled `Submit`. -/
def sampleForm : Form :=
  { action := some "https://formspree.io/f/test"
    loading := some blankRegion
    sent := some blankRegion
    error := some blankRegion
    submitBtn := some { disabled := false, innerHTML := "Submit", originalText := none }
    fields := [{ name := "email", value := "a@b.c", defaultValue := "" }] }

/-- The page at load time around `sampleForm`. -/
def samplePage : World :=
  { form := sampleForm
    now := 0
    timers := []
    inflight := []
    fetchLog := []
    console := []
    nextAttempt := 0
    nullReadMessage := "Cannot read properties of null"
    toPrimitiveMessage := "Cannot convert object to primitive value" }

/-- The same page after the `action` attribute has been emptied. -/
def pageWithoutAction : World :=
  { samplePage with form := { sampleForm with action := some "" } }

/-- A response with a JSON content type and parsed body `data`. -/
def jsonResponse (status : Nat) (data : JsVal) : Response :=
  { status := status
    statusText := ""
    contentType := some "application/json; charset=utf-8"
    body := .ok data }

/-- A 2xx response announcing JSON whose body does not parse. -/
def unparsableOk : Response :=
  { status := 200
    statusText := "OK"
    contentType := some "application/json"
    body := .error "Unexpected end of JSON input" }

/-- A 2xx response carrying an HTML page. -/
def htmlOk : Response :=
  { status := 200
    statusText := "OK"
    contentType := some "text/html"
    body := .error "Unexpected token" }

/-- Two failed submissions, the second one 5 s after the first. -/
def twoFailures : List Event :=
  [.submit,
   .settle 0 (.response (jsonResponse 422 (.obj [("error", .str "Invalid email")]))),
   .elapse 5000,
   .submit,
   .settle 1 (.response (jsonResponse 422 (.obj [("error", .str "Email is required")])))]

/-! ## Basic facts about the controller functions -/

theorem regionVisible_hide (o : Option Region) :
    regionVisible (o.map Region.hide) = false := by
  cases o <;> simp [regionVisible, Region.visible, Region.hide]

theorem regionVisible_show (o : Option Region) :
    regionVisible (o.map Region.show) = o.isSome := by
  cases o <;> simp [regionVisible, Region.visible, Region.show]

theorem hide_hide (r : Region) : r.hide.hide = r.hide := rfl

theorem show_hide (r : Region) : r.hide.show = r.show := rfl

theorem restoredLabel_ne_empty (o : Option String) : restoredLabel o ≠ "" := by
  unfold restoredLabel
  split
  · split
    · simp_all
    · decide
  · decide

theorem restoredLabel_some (s : String) (h : s ≠ "") : restoredLabel (some s) = s := by
  simp [restoredLabel, h]

theorem hideAllStates_eq (f : Form) :
    hideAllStates f =
      { action := f.action
        loading := f.loading.map Region.hide
        sent := f.sent.map Region.hide
        error := f.error.map Region.hide
        submitBtn := f.submitBtn.map fun b =>
          { b with disabled := false, innerHTML := restoredLabel b.originalText }
        fields := f.fields } := rfl

theorem visibleCount_hideAllStates (f : Form) : visibleCount (hideAllStates f) = 0 := by
  simp [visibleCount, hideAllStates_eq, regionVisible_hide]

theorem showLoading_eq (f : Form) :
    showLoading f =
      { action := f.action
        loading := f.loading.map Region.show
        sent := f.sent.map Region.hide
        error := f.error.map Region.hide
        submitBtn := f.submitBtn.map fun b =>
          Button.busy { b with disabled := false, innerHTML := restoredLabel b.originalText }
        fields := f.fields } := by
  cases f with
  | mk action loading sent error submitBtn fields =>
    cases loading <;> cases submitBtn <;> simp [showLoading, hideAllStates_eq, Region.show, Region.hide]

theorem showSuccess_eq (f : Form) :
    showSuccess f =
      { action := f.action
        loading := f.loading.map Region.hide
        sent := f.sent.map Region.show
        error := f.error.map Region.hide
        submitBtn := f.submitBtn.map fun b =>
          { b with disabled := false, innerHTML := restoredLabel b.originalText }
        fields := f.fields } := by
  cases f with
  | mk action loading sent error submitBtn fields =>
    cases sent <;> simp [showSuccess, hideAllStates_eq, Region.show, Region.hide]

theorem showError_eq (m : String) (f : Form) :
    showError m f =
      { action := f.action
        loading := f.loading.map Region.hide
        sent := f.sent.map Region.hide
        error := f.error.map fun _ => { innerHTML := m, display := "block", dBlock := true }
        submitBtn := f.submitBtn.map fun b =>
          { b with disabled := false, innerHTML := restoredLabel b.originalText }
        fields := f.fields } := by
  cases f with
  | mk action loading sent error submitBtn fields =>
    cases error <;> simp [showError, hideAllStates_eq, Region.show, Region.hide]

theorem toNat_le_one (b : Bool) : b.toNat ≤ 1 := by cases b <;> simp

theorem visibleCount_showLoading (f : Form) : visibleCount (showLoading f) ≤ 1 := by
  simp only [visibleCount, showLoading_eq, regionVisible_hide]
  simpa using toNat_le_one _

theorem visibleCount_showSuccess (f : Form) : visibleCount (showSuccess f) ≤ 1 := by
  simp only [visibleCount, showSuccess_eq, regionVisible_hide]
  simpa using toNat_le_one _

theorem visibleCount_showError (m : String) (f : Form) :
    visibleCount (showError m f) ≤ 1 := by
  simp only [visibleCount, showError_eq, regionVisible_hide]
  simpa using toNat_le_one _

theorem visibleCount_hideLoading (f : Form) :
    visibleCount (hideLoading f) ≤ visibleCount f := by
  simp [visibleCount, hideLoading, regionVisible_hide]

theorem visibleCount_hideSuccess (f : Form) :
    visibleCount (hideSuccess f) ≤ visibleCount f := by
  simp [visibleCount, hideSuccess, regionVisible_hide]

theorem visibleCount_hideError (f : Form) :
    visibleCount (hideError f) ≤ visibleCount f := by
  simp [visibleCount, hideError, regionVisible_hide]

theorem visibleCount_reset (f : Form) : visibleCount f.reset = visibleCount f := rfl

theorem visibleCount_timers (ts : List Timer) (f : Form) :
    visibleCount (ts.foldl (fun g t => t.action.run g) f) ≤ visibleCount f := by
  induction ts generalizing f with
  | nil => exact Nat.le_refl _
  | cons t rest ih =>
    refine Nat.le_trans (ih _) ?_
    cases t with
    | mk due action =>
      cases action
      · exact visibleCount_hideSuccess f
      · exact visibleCount_hideError f

theorem visibleCount_op (o : Op) (w : World) (h : visibleCount w.form ≤ 1) :
    visibleCount (o.apply w).form ≤ 1 := by
  cases o with
  | showLoading => exact visibleCount_showLoading _
  | hideLoading => exact Nat.le_trans (visibleCount_hideLoading _) h
  | showSuccess => exact visibleCount_showSuccess _
  | hideSuccess => exact Nat.le_trans (visibleCount_hideSuccess _) h
  | displayError m => exact visibleCount_showError _ _
  | hideError => exact Nat.le_trans (visibleCount_hideError _) h
  | hideAllStates => simp [Op.apply, visibleCount_hideAllStates]

theorem visibleCount_onFetchSettled (o : Outcome) (w : World) :
    visibleCount (onFetchSettled o w).form ≤ 1 := by
  cases o with
  | rejected m => exact visibleCount_showError _ _
  | response r =>
    simp only [onFetchSettled]
    split
    · exact visibleCount_showSuccess _
    · exact visibleCount_showError _ _

theorem visibleCount_event (e : Event) (w : World) (h : visibleCount w.form ≤ 1) :
    visibleCount (e.apply w).form ≤ 1 := by
  cases e with
  | submit =>
    simp only [Event.apply, submit]
    split
    · split
      · exact visibleCount_showLoading _
      · exact visibleCount_showError _ _
    · exact visibleCount_showError _ _
  | settle a o =>
    simp only [Event.apply, settle]
    split
    · exact visibleCount_onFetchSettled _ _
    · exact h
  | elapse dt => exact Nat.le_trans (visibleCount_timers _ _) h
  | op o => exact visibleCount_op o w h

theorem visibleCount_runOps (ops : List Op) (w : World) (h : visibleCount w.form ≤ 1) :
    visibleCount (runOps ops w).form ≤ 1 := by
  induction ops generalizing w with
  | nil => exact h
  | cons o rest ih => exact ih _ (visibleCount_op o w h)

theorem visibleCount_run (evs : List Event) (w : World) (h : visibleCount w.form ≤ 1) :
    visibleCount (run evs w).form ≤ 1 := by
  induction evs generalizing w with
  | nil => exact h
  | cons e rest ih => exact ih _ (visibleCount_event e w h)

/-! ## The stored label -/

theorem memento_hideLoading (f : Form) : memento (hideLoading f) = memento f := by
  cases f with
  | mk action loading sent error submitBtn fields =>
    cases submitBtn <;> simp [memento, hideLoading]

theorem memento_hideSuccess (f : Form) : memento (hideSuccess f) = memento f := rfl

theorem memento_hideError (f : Form) : memento (hideError f) = memento f := rfl

theorem memento_hideAllStates (f : Form) : memento (hideAllStates f) = memento f := by
  cases f with
  | mk action loading sent error submitBtn fields =>
    cases submitBtn <;> simp [memento, hideAllStates_eq]

theorem memento_showSuccess (f : Form) : memento (showSuccess f) = memento f := by
  cases f with
  | mk action loading sent error submitBtn fields =>
    cases submitBtn <;> simp [memento, showSuccess_eq]

theorem memento_showError (m : String) (f : Form) : memento (showError m f) = memento f := by
  cases f with
  | mk action loading sent error submitBtn fields =>
    cases submitBtn <;> simp [memento, showError_eq]

theorem memento_reset (f : Form) : memento f.reset = memento f := rfl

theorem memento_showLoading (f : Form) (h : mementoFixed (memento f) = true) :
    memento (showLoading f) = memento f := by
  cases f with
  | mk action loading sent error submitBtn fields =>
    cases submitBtn with
    | none => simp [memento, showLoading_eq]
    | some b =>
      simp only [memento, mementoFixed, Option.map_some'] at h
      simp [memento, showLoading_eq, Button.busy, h]

theorem mementoFixed_showLoading (f : Form) :
    mementoFixed (memento (showLoading f)) = true := by
  cases f with
  | mk action loading sent error submitBtn fields =>
    cases submitBtn with
    | none => simp [memento, showLoading_eq, mementoFixed]
    | some b =>
      by_cases hb : attrTruthy b.originalText = true
      · simp [memento, showLoading_eq, mementoFixed, Button.busy, hb]
      · have hb' : attrTruthy b.originalText = false := by simpa using hb
        have hne := restoredLabel_ne_empty b.originalText
        simp only [memento, showLoading_eq, Option.map_some', mementoFixed, Button.busy, hb']
        simpa [attrTruthy] using hne

theorem memento_timers (ts : List Timer) (f : Form) :
    memento (ts.foldl (fun g t => t.action.run g) f) = memento f := by
  induction ts generalizing f with
  | nil => rfl
  | cons t rest ih =>
    refine (ih _).trans ?_
    cases t with
    | mk due action => cases action <;> rfl

theorem memento_op (o : Op) (w : World) (h : mementoFixed (memento w.form) = true) :
    memento (o.apply w).form = memento w.form := by
  cases o with
  | showLoading => exact memento_showLoading _ h
  | hideLoading => exact memento_hideLoading _
  | showSuccess => exact memento_showSuccess _
  | hideSuccess => rfl
  | displayError m => exact memento_showError _ _
  | hideError => rfl
  | hideAllStates => exact memento_hideAllStates _

theorem memento_onFetchSettled (o : Outcome) (w : World) :
    memento (onFetchSettled o w).form = memento w.form := by
  cases o with
  | rejected m => exact memento_showError _ _
  | response r =>
    simp only [onFetchSettled]
    split
    · exact (memento_showSuccess _).trans (memento_hideLoading _)
    · exact (memento_showError _ _).trans (memento_hideLoading _)

theorem memento_event (e : Event) (w : World) (h : mementoFixed (memento w.form) = true) :
    memento (e.apply w).form = memento w.form := by
  cases e with
  | submit =>
    simp only [Event.apply, submit]
    split
    · split
      · exact memento_showLoading _ h
      · exact memento_showError _ _
    · exact memento_showError _ _
  | settle a o =>
    simp only [Event.apply, settle]
    split
    · exact memento_onFetchSettled _ _
    · rfl
  | elapse dt => exact memento_timers _ _
  | op o => exact memento_op o w h

theorem memento_run (evs : List Event) (w : World)
    (h : mementoFixed (memento w.form) = true) :
    memento (run evs w).form = memento w.form := by
  induction evs generalizing w with
  | nil => rfl
  | cons e rest ih =>
    have he := memento_event e w h
    exact (ih (e.apply w) (by rw [he]; exact h)).trans he

theorem submit_form_of_action (w : World) (h : attrTruthy w.form.action = true) :
    (submit w).form = showLoading w.form := by
  unfold submit
  cases ha : w.form.action with
  | none => simp [ha, attrTruthy] at h
  | some a =>
    have : (a != "") = true := by simpa [ha, attrTruthy] using h
    simp [this]

/-- After `showLoading` then `hideLoading` the button's label is the stored label, or the
default one when nothing non-empty was stored before; the label the button had does
not enter into it. -/
theorem showLoading_hideLoading_button (f : Form) :
    (hideLoading (showLoading f)).submitBtn =
      f.submitBtn.map fun b =>
        { disabled := false
          innerHTML := restoredLabel b.originalText
          originalText :=
            if attrTruthy b.originalText then b.originalText
            else some (restoredLabel b.originalText) } := by
  cases f with
  | mk action loading sent error submitBtn fields =>
    cases submitBtn with
    | none => simp [hideLoading, showLoading_eq]
    | some b =>
      by_cases hb : attrTruthy b.originalText = true
      · simp [hideLoading, showLoading_eq, Button.busy, hb]
      · have hb' : attrTruthy b.originalText = false := by simpa using hb
        have hr := restoredLabel_some _ (restoredLabel_ne_empty b.originalText)
        simp [hideLoading, showLoading_eq, Button.busy, hb', hr]

/-! ## The promise chain -/

theorem responseResult_ok (n p : String) (r : Response) (hok : r.ok = true)
    (hbody : r.isJson = false ∨ ∃ d, r.body = .ok d) : responseResult n p r = .ok () := by
  unfold responseResult
  rcases hbody with h | ⟨d, h⟩
  · simp [hok, h]
  · simp [hok, h]

theorem responseResult_json_error (n p : String) (r : Response) (data : JsVal)
    (hok : r.ok = false) (hjson : r.isJson = true) (hbody : r.body = .ok data) :
    responseResult n p r = .error (thrownMessage n p data r.status) := by
  simp [responseResult, hok, hjson, hbody]

theorem settle_of_inFlight (a : Nat) (o : Outcome) (w : World) (h : inFlight a w = true) :
    settle a o w =
      onFetchSettled o { w with inflight := w.inflight.filter fun q => q.attempt != a } := by
  simp [settle, h]

theorem onFetchSettled_fulfilled (r : Response) (w : World)
    (h : responseResult w.nullReadMessage w.toPrimitiveMessage r = .ok ()) :
    onFetchSettled (.response r) w = onFulfilled { w with form := hideLoading w.form } := by
  simp [onFetchSettled, h]

theorem onFetchSettled_failed (r : Response) (w : World) (m : String)
    (h : responseResult w.nullReadMessage w.toPrimitiveMessage r = .error m) :
    onFetchSettled (.response r) w = onRejected m { w with form := hideLoading w.form } := by
  simp [onFetchSettled, h]

theorem onRejected_error (m : String) (w : World) (h : m ≠ "") :
    (onRejected m w).form.error =
      w.form.error.map fun _ => { innerHTML := m, display := "block", dBlock := true } := by
  simp [onRejected, displayError, showError_eq, h]

theorem thrownMessage_error_field (n p : String) (fields : List (String × JsVal))
    (status : Nat) (x : String) (hx : lookupField fields "error" = .str x) (hne : x ≠ "") :
    thrownMessage n p (.obj fields) status = x := by
  simp [thrownMessage, JsVal.nullish, JsVal.getProp, hx, JsVal.or, JsVal.truthy, hne,
    JsVal.toStr]

theorem thrownMessage_errors_list (n p : String) (fields efields : List (String × JsVal))
    (rest : List JsVal) (status : Nat) (y : String)
    (he : lookupField fields "error" = .undefined)
    (hl : lookupField fields "errors" = .arr (.obj efields :: rest))
    (hy : lookupField efields "message" = .str y) (hne : y ≠ "") :
    thrownMessage n p (.obj fields) status = y := by
  simp [thrownMessage, JsVal.nullish, JsVal.getProp, he, hl, hy, JsVal.or, JsVal.truthy, hne,
    JsVal.toStr, JsVal.optIndex0, JsVal.getIndex0, JsVal.optProp]

theorem inFlight_submit (w : World) (h : attrTruthy w.form.action = true) :
    inFlight w.nextAttempt (submit w) = true := by
  unfold submit
  cases ha : w.form.action with
  | none => simp [ha, attrTruthy] at h
  | some a =>
    have : (a != "") = true := by simpa [ha, attrTruthy] using h
    simp [this, inFlight]

theorem onFetchSettled_loading (o : Outcome) (w : World) :
    regionVisible (onFetchSettled o w).form.loading = false ∧
      (onFetchSettled o w).form.submitBtn.map (fun b => b.disabled) =
        w.form.submitBtn.map (fun _ => false) ∧
      (onFetchSettled o w).inflight = w.inflight := by
  have key : ∀ (m : String) (v : World),
      regionVisible (onRejected m v).form.loading = false ∧
        (onRejected m v).form.submitBtn.map (fun b => b.disabled) =
          v.form.submitBtn.map (fun _ => false) ∧
        (onRejected m v).inflight = v.inflight := by
    intro m v
    refine ⟨?_, ?_, rfl⟩
    · simp [onRejected, displayError, showError_eq, regionVisible_hide]
    · cases hb : v.form.submitBtn <;> simp [onRejected, displayError, showError_eq, hb]
  cases o with
  | rejected m => exact key m w
  | response r =>
    simp only [onFetchSettled]
    split
    · refine ⟨?_, ?_, rfl⟩
      · simp [onFulfilled, Form.reset, showSuccess_eq, regionVisible_hide]
      · cases hb : w.form.submitBtn <;>
          simp [onFulfilled, Form.reset, showSuccess_eq, hideLoading, hb]
    · rename_i m _
      have := key m { w with form := hideLoading w.form }
      refine ⟨this.1, ?_, this.2.2⟩
      rw [this.2.1]
      cases hb : w.form.submitBtn <;> simp [hideLoading, hb]

theorem timers_frame (ts : List Timer) (f : Form) :
    (ts.foldl (fun g t => t.action.run g) f).loading = f.loading ∧
      (ts.foldl (fun g t => t.action.run g) f).submitBtn = f.submitBtn ∧
      (ts.foldl (fun g t => t.action.run g) f).fields = f.fields ∧
      (ts.foldl (fun g t => t.action.run g) f).action = f.action ∧
      ((ts.foldl (fun g t => t.action.run g) f).sent = f.sent ∨
        (ts.foldl (fun g t => t.action.run g) f).sent = f.sent.map Region.hide) ∧
      ((ts.foldl (fun g t => t.action.run g) f).error = f.error ∨
        (ts.foldl (fun g t => t.action.run g) f).error = f.error.map Region.hide) := by
  induction ts generalizing f with
  | nil => exact ⟨rfl, rfl, rfl, rfl, Or.inl rfl, Or.inl rfl⟩
  | cons t rest ih =>
    obtain ⟨h1, h2, h3, h4, h5, h6⟩ := ih (t.action.run f)
    simp only [List.foldl_cons]
    cases t with
    | mk due action =>
      cases action
      · refine ⟨h1, h2, h3, h4, ?_, h6⟩
        rcases h5 with h5 | h5
        · exact Or.inr h5
        · right
          rw [h5]
          cases hs : f.sent <;> simp [TimerAction.run, hideSuccess, hs, hide_hide]
      · refine ⟨h1, h2, h3, h4, h5, ?_⟩
        rcases h6 with h6 | h6
        · exact Or.inr h6
        · right
          rw [h6]
          cases hs : f.error <;> simp [TimerAction.run, hideError, hs, hide_hide]

theorem regionVisible_of_eq_or_hide (o o2 : Option Region)
    (h : o2 = o ∨ o2 = o.map Region.hide) (hv : regionVisible o = false) :
    regionVisible o2 = false := by
  rcases h with h | h
  · rw [h]; exact hv
  · rw [h]; exact regionVisible_hide o

/-! ## Claims -/

/-- C8: `hideAllStates` is idempotent on every form state: a second call changes
nothing (regions, button state and label, stored values, fields), and after one call
none of the three regions is visible. -/
theorem hideAllStates_idempotent (f : Form) :
    hideAllStates (hideAllStates f) = hideAllStates f ∧
      regionVisible (hideAllStates f).loading = false ∧
      regionVisible (hideAllStates f).sent = false ∧
      regionVisible (hideAllStates f).error = false := by
  refine ⟨?_, regionVisible_hide _, regionVisible_hide _, regionVisible_hide _⟩
  cases f with
  | mk action loading sent error submitBtn fields =>
    cases loading <;> cases sent <;> cases error <;> cases submitBtn <;>
      simp [hideAllStates_eq, Region.hide]

/-- C6: starting from a form with none of the loading, success and error regions
visible, after every finite sequence of controller operations (and after every run of
page events: submissions, settled requests, timer firings, controller operations) at
most one of the three regions is visible; and each of `showLoading`, `showSuccess` and
`displayError` leaves the other two regions hidden, from any state. -/
theorem at_most_one_region_visible :
    (∀ (w : World) (ops : List Op), visibleCount w.form = 0 →
        visibleCount (runOps ops w).form ≤ 1) ∧
    (∀ (w : World) (evs : List Event), visibleCount w.form = 0 →
        visibleCount (run evs w).form ≤ 1) ∧
    (∀ f : Form, regionVisible (showLoading f).sent = false ∧
        regionVisible (showLoading f).error = false) ∧
    (∀ f : Form, regionVisible (showSuccess f).loading = false ∧
        regionVisible (showSuccess f).error = false) ∧
    (∀ (m : String) (w : World), regionVisible (displayError m w).form.loading = false ∧
        regionVisible (displayError m w).form.sent = false) := by
  refine ⟨?_, ?_, ?_, ?_, ?_⟩
  · intro w ops h
    exact visibleCount_runOps ops w (by omega)
  · intro w evs h
    exact visibleCount_run evs w (by omega)
  · intro f
    simp [showLoading_eq, regionVisible_hide]
  · intro f
    simp [showSuccess_eq, regionVisible_hide]
  · intro m w
    simp [displayError, showError_eq, regionVisible_hide]

/-- Witness for C6 on the sample page: a submission that fails, a second one that
succeeds, and a direct `showLoading`. -/
theorem at_most_one_region_visible_witness :
    visibleCount samplePage.form = 0 ∧
      visibleCount (runOps [.showLoading, .displayError "x", .showSuccess, .hideError]
        samplePage).form ≤ 1 ∧
      visibleCount (run [.submit, .settle 0 (.rejected "Failed to fetch"), .submit,
        .settle 1 (.response (jsonResponse 200 (.obj []))), .op .showLoading]
        samplePage).form ≤ 1 :=
  ⟨by decide,
    at_most_one_region_visible.1 samplePage _ (by decide),
    at_most_one_region_visible.2.1 samplePage _ (by decide)⟩

/-- C7: once `showLoading` has run, the stored original label (`data-original-text`)
never changes again, whatever page events follow (submissions, settled requests,
timer firings, direct controller operations); the same holds after a submission of a
form with a non-empty action. -/
theorem memento_captured_once :
    (∀ (w : World) (evs : List Event),
        memento (run evs { w with form := showLoading w.form }).form =
          memento (showLoading w.form)) ∧
    (∀ (w : World) (evs : List Event), attrTruthy w.form.action = true →
        memento (run evs (submit w)).form = memento (submit w).form) := by
  constructor
  · intro w evs
    exact memento_run evs _ (mementoFixed_showLoading w.form)
  · intro w evs h
    refine memento_run evs _ ?_
    rw [submit_form_of_action w h]
    exact mementoFixed_showLoading w.form

/-- Witness for C7 on the sample page: the label stored by the first submission
survives a failed attempt, a second submission and its success. -/
theorem memento_captured_once_witness :
    attrTruthy samplePage.form.action = true ∧
      memento (run [.settle 0 (.rejected ""), .elapse 9000, .submit,
          .settle 1 (.response (jsonResponse 200 .null)), .op .showLoading]
          (submit samplePage)).form = memento (submit samplePage).form :=
  ⟨by decide, memento_captured_once.2 samplePage _ (by decide)⟩

/-- C5 (evaluation of the code): on a form whose submit button is labelled `Submit` and
has no stored label, `showLoading` followed by `hideLoading` leaves the button with the
default label, which is also what `showLoading` stored: `hideAllStates` has replaced
the label before it is captured. -/
theorem showLoading_hideLoading_loses_label :
    sampleForm.submitBtn =
        some { disabled := false, innerHTML := "Submit", originalText := none } ∧
      (showLoading sampleForm).submitBtn =
        some { disabled := true, innerHTML := sendingLabel,
               originalText := some defaultLabel } ∧
      (hideLoading (showLoading sampleForm)).submitBtn =
        some { disabled := false, innerHTML := defaultLabel,
               originalText := some defaultLabel } ∧
      defaultLabel ≠ "Submit" := by
  decide

/-- C1: submitting a form whose action attribute is absent or empty ends with the
error region (when the form has one) visible and holding exactly the text
"The form action property is not set!", issues no request (the log of `fetch` calls
and the in-flight list are unchanged), leaves the loading region hidden and the
button enabled with its restored label, and sets the 8 s error timer. -/
theorem submit_without_action (w : World) (h : attrTruthy w.form.action = false) :
    (submit w).form.error =
        w.form.error.map (fun _ =>
          { innerHTML := "The form action property is not set!", display := "block",
            dBlock := true }) ∧
      regionVisible (submit w).form.error = w.form.error.isSome ∧
      (submit w).fetchLog = w.fetchLog ∧
      (submit w).inflight = w.inflight ∧
      regionVisible (submit w).form.loading = false ∧
      regionVisible (submit w).form.sent = false ∧
      (submit w).form.submitBtn =
        w.form.submitBtn.map (fun b =>
          { b with disabled := false, innerHTML := restoredLabel b.originalText }) ∧
      (submit w).timers = w.timers ++ [{ due := w.now + 8000, action := .hideError }] := by
  have hs : submit w =
      displayError "The form action property is not set!"
        { w with nextAttempt := w.nextAttempt + 1 } := by
    unfold submit
    cases ha : w.form.action with
    | none => rfl
    | some a =>
      have : a = "" := by simpa [ha, attrTruthy] using h
      simp [this]
  rw [hs]
  refine ⟨?_, ?_, rfl, rfl, ?_, ?_, ?_, rfl⟩
  · simp [displayError, showError_eq]
  · cases he : w.form.error <;>
      simp [displayError, showError_eq, he, regionVisible, Region.visible]
  · simp [displayError, showError_eq, regionVisible_hide]
  · simp [displayError, showError_eq, regionVisible_hide]
  · simp [displayError, showError_eq]

/-- Witness for C1: the sample page with an emptied action attribute. -/
theorem submit_without_action_witness :
    attrTruthy pageWithoutAction.form.action = false ∧
      (submit pageWithoutAction).form.error =
        some { innerHTML := "The form action property is not set!", display := "block",
               dBlock := true } ∧
      (submit pageWithoutAction).fetchLog = [] :=
  ⟨by decide, (submit_without_action pageWithoutAction (by decide)).1,
    (submit_without_action pageWithoutAction (by decide)).2.2.1⟩

/-- C2 as stated fails: a 200 response announcing JSON whose body does not parse takes
the error path. The success region stays hidden, the fields keep their values and the
error region shows the parser message. -/
theorem unparsable_success_body_is_an_error :
    unparsableOk.ok = true ∧
      inFlight 0 (submit samplePage) = true ∧
      regionVisible (settle 0 (.response unparsableOk) (submit samplePage)).form.sent = false ∧
      (settle 0 (.response unparsableOk) (submit samplePage)).form.fields =
        [{ name := "email", value := "a@b.c", defaultValue := "" }] ∧
      (settle 0 (.response unparsableOk) (submit samplePage)).form.error =
        some { innerHTML := "Unexpected end of JSON input", display := "block",
               dBlock := true } := by
  decide

/-- C2 (amended): when an in-flight request settles with a 2xx response whose content
type is not JSON, or whose JSON body parses, every field returns to its default value,
the success region (when present) is shown, the loading and error regions are hidden,
and the 5 s success timer is set. -/
theorem success_response_resets (w : World) (a : Nat) (r : Response)
    (hfl : inFlight a w = true) (hok : r.ok = true)
    (hbody : r.isJson = false ∨ ∃ d, r.body = .ok d) :
    (settle a (.response r) w).form.fields =
        w.form.fields.map (fun c => { c with value := c.defaultValue }) ∧
      (settle a (.response r) w).form.sent = w.form.sent.map Region.show ∧
      regionVisible (settle a (.response r) w).form.sent = w.form.sent.isSome ∧
      regionVisible (settle a (.response r) w).form.loading = false ∧
      regionVisible (settle a (.response r) w).form.error = false ∧
      (settle a (.response r) w).timers =
        w.timers ++ [{ due := w.now + 5000, action := .hideSuccess }] := by
  rw [settle_of_inFlight a _ w hfl,
    onFetchSettled_fulfilled r _ (responseResult_ok _ _ r hok hbody)]
  refine ⟨?_, ?_, ?_, ?_, ?_, rfl⟩
  · simp [onFulfilled, Form.reset, showSuccess_eq, hideLoading]
  · simp [onFulfilled, Form.reset, showSuccess_eq, hideLoading]
  · simp [onFulfilled, Form.reset, showSuccess_eq, hideLoading, regionVisible_show]
  · simp [onFulfilled, Form.reset, showSuccess_eq, regionVisible_hide]
  · simp [onFulfilled, Form.reset, showSuccess_eq, hideLoading, regionVisible_hide]

/-- Witness for C2 (amended): the sample form, answered with a 200 HTML page. -/
theorem success_response_resets_witness :
    (settle 0 (.response htmlOk) (submit samplePage)).form.fields =
      [{ name := "email", value := "", defaultValue := "" }] :=
  (success_response_resets (submit samplePage) 0 htmlOk
    (by decide) (by decide) (Or.inl (by decide))).1

/-- C3 as stated fails at the empty string: for the 422 body with `error` equal to `""`
the string assigned to the error region is "HTTP Error: 422". -/
theorem empty_error_field_falls_through :
    (jsonResponse 422 (.obj [("error", .str "")])).ok = false ∧
      (jsonResponse 422 (.obj [("error", .str "")])).isJson = true ∧
      lookupField [("error", .str "")] "error" = .str "" ∧
      (settle 0 (.response (jsonResponse 422 (.obj [("error", .str "")])))
          (submit samplePage)).form.error =
        some { innerHTML := "HTTP Error: 422", display := "block", dBlock := true } := by
  refine ⟨by decide, by decide, rfl, by decide⟩

/-- C3 (amended): when an in-flight request settles with a non-2xx response whose
`content-type` header includes the substring `application/json` (the case-sensitive
test of line 51) and whose body is an object with top-level `error` equal to a
non-empty string `x`, the string assigned to the `innerHTML` of the error region (when
present) is exactly `x`, and the region is shown. -/
theorem error_field_displayed (w : World) (a : Nat) (r : Response)
    (fields : List (String × JsVal)) (x : String)
    (hfl : inFlight a w = true) (hok : r.ok = false) (hjson : r.isJson = true)
    (hbody : r.body = .ok (.obj fields)) (hx : lookupField fields "error" = .str x)
    (hne : x ≠ "") :
    (settle a (.response r) w).form.error =
      w.form.error.map fun _ => { innerHTML := x, display := "block", dBlock := true } := by
  rw [settle_of_inFlight a _ w hfl,
    onFetchSettled_failed r _ x (by
      rw [responseResult_json_error _ _ r _ hok hjson hbody,
        thrownMessage_error_field _ _ fields r.status x hx hne]),
    onRejected_error x _ hne]
  simp [hideLoading]

/-- Witness for C3 (amended): the 422 answer `{"error": "Invalid email"}`. -/
theorem error_field_displayed_witness :
    (settle 0 (.response (jsonResponse 422 (.obj [("error", .str "Invalid email")])))
        (submit samplePage)).form.error =
      (submit samplePage).form.error.map fun _ =>
        { innerHTML := "Invalid email", display := "block", dBlock := true } :=
  error_field_displayed (submit samplePage) 0
    (jsonResponse 422 (.obj [("error", .str "Invalid email")]))
    [("error", .str "Invalid email")] "Invalid email"
    (by decide) (by decide) (by decide) rfl rfl (by decide)

/-- C4 as stated fails at the empty string: for the 422 body whose `errors` list starts
with an object of `message` equal to `""` the string assigned to the error region is
"HTTP Error: 422". -/
theorem empty_errors_message_falls_through :
    (jsonResponse 422 (.obj [("errors", .arr [.obj [("message", .str "")]])])).ok = false ∧
      (jsonResponse 422 (.obj [("errors", .arr [.obj [("message", .str "")]])])).isJson
        = true ∧
      lookupField [("errors", .arr [.obj [("message", .str "")]])] "error" = .undefined ∧
      lookupField [("message", .str "")] "message" = .str "" ∧
      (settle 0
          (.response (jsonResponse 422 (.obj [("errors", .arr [.obj [("message", .str "")]])])))
          (submit samplePage)).form.error =
        some { innerHTML := "HTTP Error: 422", display := "block", dBlock := true } := by
  refine ⟨by decide, by decide, rfl, rfl, by decide⟩

/-- C4 (amended): when an in-flight request settles with a non-2xx response whose
`content-type` header includes the substring `application/json` (the case-sensitive
test of line 51) and whose body is an object without a top-level `error` field and
with an `errors` list whose first element is an object with `message` equal to a
non-empty string `y`, the string assigned to the `innerHTML` of the error region (when
present) is exactly `y`, and the region is shown. -/
theorem errors_list_message_displayed (w : World) (a : Nat) (r : Response)
    (fields efields : List (String × JsVal)) (rest : List JsVal) (y : String)
    (hfl : inFlight a w = true) (hok : r.ok = false) (hjson : r.isJson = true)
    (hbody : r.body = .ok (.obj fields))
    (he : lookupField fields "error" = .undefined)
    (hl : lookupField fields "errors" = .arr (.obj efields :: rest))
    (hy : lookupField efields "message" = .str y) (hne : y ≠ "") :
    (settle a (.response r) w).form.error =
      w.form.error.map fun _ => { innerHTML := y, display := "block", dBlock := true } := by
  rw [settle_of_inFlight a _ w hfl,
    onFetchSettled_failed r _ y (by
      rw [responseResult_json_error _ _ r _ hok hjson hbody,
        thrownMessage_errors_list _ _ fields efields rest r.status y he hl hy hne]),
    onRejected_error y _ hne]
  simp [hideLoading]

/-- Witness for C4 (amended): the 422 answer
`{"errors": [{"message": "Email is required"}]}`. -/
theorem errors_list_message_displayed_witness :
    (settle 0
        (.response (jsonResponse 422
          (.obj [("errors", .arr [.obj [("message", .str "Email is required")]])])))
        (submit samplePage)).form.error =
      (submit samplePage).form.error.map fun _ =>
        { innerHTML := "Email is required", display := "block", dBlock := true } :=
  errors_list_message_displayed (submit samplePage) 0
    (jsonResponse 422 (.obj [("errors", .arr [.obj [("message", .str "Email is required")]])]))
    [("errors", .arr [.obj [("message", .str "Email is required")]])]
    [("message", .str "Email is required")] [] "Email is required"
    (by decide) (by decide) (by decide) rfl rfl rfl rfl (by decide)

/-- C9 as stated fails: the 8 s timer of a first failed attempt (set at 0 ms) fires at
8000 ms and hides the error region that a second failed attempt has been showing since
5000 ms; the second attempt's own timer (due at 13000 ms) is still pending. -/
theorem stale_timer_hides_newer_error :
    (run (twoFailures.take 2) samplePage).timers = [{ due := 8000, action := .hideError }] ∧
      (run twoFailures samplePage).now = 5000 ∧
      (run twoFailures samplePage).timers =
        [{ due := 8000, action := .hideError }, { due := 13000, action := .hideError }] ∧
      (run twoFailures samplePage).form.error =
        some { innerHTML := "Email is required", display := "block", dBlock := true } ∧
      regionVisible (run twoFailures samplePage).form.error = true ∧
      (elapse 3000 (run twoFailures samplePage)).timers =
        [{ due := 13000, action := .hideError }] ∧
      (elapse 3000 (run twoFailures samplePage)).form.error =
        some { innerHTML := "Email is required", display := "none", dBlock := false } ∧
      regionVisible (elapse 3000 (run twoFailures samplePage)).form.error = false := by
  decide

/-- C9 (amended): a firing auto-hide timer, stale or not, hides only the region it
targets (the success region for the 5 s timer, the error region for the 8 s timer): the
loading region, the other message region, the button, the fields, the requests and the
action are unchanged; when the targeted region is already hidden the firing changes no
region's visibility; over any lapse of time each message region is either untouched or
hidden, and nothing becomes visible or hidden when both were hidden already. -/
theorem timer_firing_effect :
    (∀ f : Form, (TimerAction.hideSuccess.run f).sent = f.sent.map Region.hide ∧
        (TimerAction.hideSuccess.run f).error = f.error ∧
        (TimerAction.hideSuccess.run f).loading = f.loading ∧
        (TimerAction.hideSuccess.run f).submitBtn = f.submitBtn) ∧
    (∀ f : Form, (TimerAction.hideError.run f).error = f.error.map Region.hide ∧
        (TimerAction.hideError.run f).sent = f.sent ∧
        (TimerAction.hideError.run f).loading = f.loading ∧
        (TimerAction.hideError.run f).submitBtn = f.submitBtn) ∧
    (∀ (a : TimerAction) (f : Form), regionVisible (a.target f) = false →
        regionVisible (a.run f).loading = regionVisible f.loading ∧
        regionVisible (a.run f).sent = regionVisible f.sent ∧
        regionVisible (a.run f).error = regionVisible f.error) ∧
    (∀ (w : World) (dt : Nat),
        (elapse dt w).form.loading = w.form.loading ∧
        (elapse dt w).form.submitBtn = w.form.submitBtn ∧
        (elapse dt w).form.fields = w.form.fields ∧
        (elapse dt w).form.action = w.form.action ∧
        (elapse dt w).inflight = w.inflight ∧
        (elapse dt w).fetchLog = w.fetchLog ∧
        ((elapse dt w).form.sent = w.form.sent ∨
          (elapse dt w).form.sent = w.form.sent.map Region.hide) ∧
        ((elapse dt w).form.error = w.form.error ∨
          (elapse dt w).form.error = w.form.error.map Region.hide)) ∧
    (∀ (w : World) (dt : Nat), regionVisible w.form.sent = false →
        regionVisible w.form.error = false →
        regionVisible (elapse dt w).form.loading = regionVisible w.form.loading ∧
        regionVisible (elapse dt w).form.sent = false ∧
        regionVisible (elapse dt w).form.error = false) := by
  refine ⟨fun f => ⟨rfl, rfl, rfl, rfl⟩, fun f => ⟨rfl, rfl, rfl, rfl⟩, ?_, ?_, ?_⟩
  · intro a f h
    cases a
    · refine ⟨rfl, ?_, rfl⟩
      simp only [TimerAction.target] at h
      simp [TimerAction.run, hideSuccess, regionVisible_hide, h]
    · refine ⟨rfl, rfl, ?_⟩
      simp only [TimerAction.target] at h
      simp [TimerAction.run, hideError, regionVisible_hide, h]
  · intro w dt
    obtain ⟨h1, h2, h3, h4, h5, h6⟩ :=
      timers_frame (firingOrder (w.timers.filter fun t => decide (t.due ≤ w.now + dt))) w.form
    exact ⟨h1, h2, h3, h4, rfl, rfl, h5, h6⟩
  · intro w dt hs he
    obtain ⟨h1, _, _, _, h5, h6⟩ :=
      timers_frame (firingOrder (w.timers.filter fun t => decide (t.due ≤ w.now + dt))) w.form
    refine ⟨?_, regionVisible_of_eq_or_hide _ _ h5 hs, regionVisible_of_eq_or_hide _ _ h6 he⟩
    exact congrArg regionVisible h1

/-- Witness for C9 (amended): on the sample page in its loading state, with a stale
error timer pending, the timer fires and no region's visibility changes. -/
theorem timer_firing_effect_witness :
    regionVisible (submit (displayError "x" samplePage)).form.sent = false ∧
      regionVisible (submit (displayError "x" samplePage)).form.error = false ∧
      (submit (displayError "x" samplePage)).timers =
        [{ due := 8000, action := .hideError }] ∧
      regionVisible (elapse 8000 (submit (displayError "x" samplePage))).form.loading =
        regionVisible (submit (displayError "x" samplePage)).form.loading :=
  ⟨by decide, by decide, by decide,
    (timer_firing_effect.2.2.2.2 (submit (displayError "x" samplePage)) 8000
      (by decide) (by decide)).1⟩

/-- C10: a submission of a form with a non-empty action puts its request in flight, and
however that request settles (2xx response, non-2xx response, rejected `fetch`), right
after the promise chain has run the loading region is hidden, the submit button (when
present) is enabled, and the request is no longer in flight. -/
theorem loading_ends_on_every_outcome :
    (∀ w : World, attrTruthy w.form.action = true →
        inFlight w.nextAttempt (submit w) = true) ∧
    (∀ (w : World) (a : Nat) (o : Outcome), inFlight a w = true →
        regionVisible (settle a o w).form.loading = false ∧
        (settle a o w).form.submitBtn.map (fun b => b.disabled) =
          w.form.submitBtn.map (fun _ => false) ∧
        inFlight a (settle a o w) = false) := by
  refine ⟨inFlight_submit, ?_⟩
  intro w a o h
  rw [settle_of_inFlight a o w h]
  obtain ⟨h1, h2, h3⟩ :=
    onFetchSettled_loading o { w with inflight := w.inflight.filter fun q => q.attempt != a }
  refine ⟨h1, h2, ?_⟩
  simp [inFlight, h3]

/-- Witness for C10: the sample form, with `fetch` rejected. -/
theorem loading_ends_on_every_outcome_witness :
    attrTruthy samplePage.form.action = true ∧
      inFlight samplePage.nextAttempt (submit samplePage) = true ∧
      regionVisible
        (settle 0 (.rejected "Failed to fetch") (submit samplePage)).form.loading = false :=
  ⟨by decide, loading_ends_on_every_outcome.1 samplePage (by decide),
    (loading_ends_on_every_outcome.2 (submit samplePage) 0 (.rejected "Failed to fetch")
      (by decide)).1⟩

end Formspree
